import Mathlib

/-!
# Verification of the Gazebo MAVLink bridge (`gazebo_mavlink_interface`)

Shallow embedding, in Lean 4, of the protocol-correctness-critical parts of
`src/gazebo_mavlink_interface.cpp` / `include/gazebo_mavlink_interface.h`:

* the serial transmit queue (`tx_q` of `MsgBuffer`, `send_mavlink_message`,
  `do_write` and its asynchronous write-completion handler);
* the serial frame decoder wrapper (`parse_buffer`) around the MAVLink
  byte-stream parser, with its resynchronization-on-error logic;
* the outbound router of `send_mavlink_message` (serial queue vs UDP `sendto`);
* the HIL actuator-control decode in `handle_message`;
* the rate gating of the HIL sensor / ground-truth builders in `ImuCallback`;
* the optical-flow gyro accumulator (`optflow_gyro`);
* the `hil_mode` / `hil_state_level` configuration guards in `Load`;
* the stale-actuator zeroing of the motor-speed command in `OnUpdate`.

C++ `double`/`float` arithmetic is modelled over `ℚ`; machine integers over
`Nat`.  Event-driven (asio) code is modelled as explicit state-passing: each
handler is a function from the pre-state (plus the event's data) to the
post-state, together with a flag recording whether a new asynchronous write
was initiated inside the same call.
-/

namespace GazeboMavlink

/-! ## Transmit queue (`MsgBuffer`, `tx_q`, `send_mavlink_message`, `do_write`)

`MsgBuffer` (from `msgbuffer.h`) holds one encoded frame: its total length
`len` and the write cursor `pos`; `nbytes() = len - pos` is the number of
bytes still to be written. -/

structure MsgBuffer where
  len : Nat
  pos : Nat
deriving DecidableEq, Repr

/-- Source `MsgBuffer::nbytes()`: remaining bytes to write (`len - pos`). -/
def MsgBuffer.nbytes (b : MsgBuffer) : Nat := b.len - b.pos

/-- Constant `MAX_TXQ_SIZE` from `gazebo_mavlink_interface.h` line 82. -/
def MAX_TXQ_SIZE : Nat := 1000

/-- The serial branch of `send_mavlink_message` (lines 368-375): under the
lock, the overflow check `if (tx_q.size() >= MAX_TXQ_SIZE)` has an empty
body (its `gzwarn` is commented out), and `tx_q.emplace_back(message)` runs
unconditionally afterwards, so the frame is appended in either case. -/
def enqueueFrame (tx_q : List MsgBuffer) (m : MsgBuffer) : List MsgBuffer :=
  if tx_q.length ≥ MAX_TXQ_SIZE then
    -- overflow branch: the warning is commented out; nothing else happens,
    -- and control falls through to the unconditional emplace_back
    tx_q ++ [m]
  else
    tx_q ++ [m]

lemma enqueueFrame_eq (tx_q : List MsgBuffer) (m : MsgBuffer) :
    enqueueFrame tx_q m = tx_q ++ [m] := by
  unfold enqueueFrame
  split <;> rfl

/-- The queue-related state shared between `send_mavlink_message` and
`do_write`: the deque `tx_q` and the `tx_in_progress` flag. -/
structure TxState where
  tx_q : List MsgBuffer
  tx_in_progress : Bool
deriving DecidableEq, Repr

/-- Source `do_write(check_tx_state)` (lines 941-952) up to the point where the
asynchronous write is initiated.  Returns the post-state together with a
flag telling whether `serial_dev.async_write_some` was called. -/
def doWrite (check_tx_state : Bool) (s : TxState) : TxState × Bool :=
  if check_tx_state && s.tx_in_progress then
    (s, false)
  else if s.tx_q.isEmpty then
    (s, false)
  else
    ({ s with tx_in_progress := true }, true)

/-- The write-completion lambda inside `do_write` (lines 953-979), invoked
with the asio error flag and `bytes_transferred`.  On error it logs and
returns (nothing else: `tx_in_progress` is left as it was and the head
frame stays queued).  On success it advances the head's cursor, pops it
when fully written, and either chains `do_write(false)` (starting the next
write in the same call) or clears `tx_in_progress`. -/
def writeCompletion (s : TxState) (error : Bool) (bytes_transferred : Nat) :
    TxState × Bool :=
  if error then
    -- gzerr << "Serial error: ..."; return;
    (s, false)
  else
    match s.tx_q with
    | [] => ({ s with tx_in_progress := false }, false)
    | b :: rest =>
      let b' : MsgBuffer := { b with pos := b.pos + bytes_transferred }
      let q' := if b'.nbytes = 0 then rest else b' :: rest
      if q'.isEmpty then
        ({ tx_q := q', tx_in_progress := false }, false)
      else
        doWrite false { tx_q := q', tx_in_progress := s.tx_in_progress }

/-- C1 counterexample.  The claim asserts that enqueuing onto a queue already
holding `MAX_TXQ_SIZE` frames silently drops the new frame leaving the queue
unchanged.  On the code, a full queue of 1000 frames is changed by the
enqueue: the new frame is appended anyway. -/
theorem c1_counterexample :
    ¬ (enqueueFrame (List.replicate MAX_TXQ_SIZE ⟨8, 0⟩) ⟨9, 0⟩
        = List.replicate MAX_TXQ_SIZE ⟨8, 0⟩) := by
  intro h
  have hlen := congrArg List.length h
  simp only [enqueueFrame_eq, List.length_append, List.length_replicate,
    List.length_singleton] at hlen
  omega

/-- C1 (amended): the overflow check has no effect, so enqueuing any
sequence of frames — no matter how many, and regardless of the
`MAX_TXQ_SIZE` capacity — appends every one of them to the queue in FIFO
order; no frame is ever dropped or evicted. -/
theorem c1_all_frames_enqueued_fifo (init : List MsgBuffer)
    (frames : List MsgBuffer) :
    frames.foldl enqueueFrame init = init ++ frames := by
  induction frames generalizing init with
  | nil => simp
  | cons f fs ih =>
    simp [List.foldl_cons, enqueueFrame_eq, ih]

/-- C2 counterexample.  Concrete state: a frame of length 10 with 3 bytes
already sent at the head of the queue, a fresh frame of length 5 behind it,
a write in flight.  The claim says that after a serial write error the
in-flight frame is abandoned and the next drain attempt makes forward
progress, restarting transmission from the next frame.  On the code,
after the error completion the next drain attempt (`do_write(true)`, the
form posted by `send_mavlink_message`) initiates no write, and the
half-sent frame — not the next one — is still at the head of the queue. -/
theorem c2_counterexample :
    ¬ (((doWrite true (writeCompletion ⟨[⟨10, 3⟩, ⟨5, 0⟩], true⟩ true 0).1).2
          = true)
       ∨ ((writeCompletion ⟨[⟨10, 3⟩, ⟨5, 0⟩], true⟩ true 0).1.tx_q.head?
          = some ⟨5, 0⟩)) := by
  decide

/-- C2 (amended): on a serial write error the completion handler returns
without popping the head frame and without clearing `tx_in_progress`, so
the same partial write is indeed not retried — but no forward progress is
ever made either: the state is unchanged by the error completion, and every
subsequent enqueue-triggered drain attempt (`do_write(true)`) returns
immediately, starting no write; the half-sent frame stays at the head of
the queue indefinitely. -/
theorem c2_error_write_stalls_queue (s : TxState)
    (h : s.tx_in_progress = true) (n k : Nat) :
    writeCompletion s true n = (s, false)
    ∧ doWrite true s = (s, false)
    ∧ (fun t => (doWrite true t).1)^[k] s = s := by
  have hdw : doWrite true s = (s, false) := by
    simp [doWrite, h]
  refine ⟨by simp [writeCompletion], hdw, ?_⟩
  induction k with
  | zero => rfl
  | succ m ih =>
    rw [Function.iterate_succ_apply, hdw]
    exact ih

/-- Witness for `c2_error_write_stalls_queue` at a concrete stuck state. -/
theorem c2_error_write_stalls_queue_witness :
    (⟨[⟨10, 3⟩], true⟩ : TxState).tx_in_progress = true
    ∧ (writeCompletion ⟨[⟨10, 3⟩], true⟩ true 4 = (⟨[⟨10, 3⟩], true⟩, false)
       ∧ doWrite true ⟨[⟨10, 3⟩], true⟩ = (⟨[⟨10, 3⟩], true⟩, false)
       ∧ (fun t => (doWrite true t).1)^[3] ⟨[⟨10, 3⟩], true⟩
          = ⟨[⟨10, 3⟩], true⟩) :=
  ⟨by decide, c2_error_write_stalls_queue ⟨[⟨10, 3⟩], true⟩ (by decide) 4 3⟩

/-- C4: on a successful write completion of `n` bytes (with the head frame
in flight, so `tx_in_progress = true` and the queue non-empty), the head's
cursor is advanced by exactly `n`; if the cursor thereby reaches the
frame's length the head is popped; and whenever the queue remains
non-empty a new write is started within the same completion call (the
chained `do_write(false)`), while an emptied queue clears
`tx_in_progress` and starts no write. -/
theorem c4_write_completion_advances_and_chains (b : MsgBuffer)
    (rest : List MsgBuffer) (n : Nat) (hn : b.pos + n ≤ b.len) :
    ((writeCompletion ⟨b :: rest, true⟩ false n).1.tx_q
      = if b.pos + n = b.len then rest
        else { b with pos := b.pos + n } :: rest)
    ∧ ((writeCompletion ⟨b :: rest, true⟩ false n).1.tx_q ≠ [] →
        (writeCompletion ⟨b :: rest, true⟩ false n).1.tx_in_progress = true
        ∧ (writeCompletion ⟨b :: rest, true⟩ false n).2 = true)
    ∧ ((writeCompletion ⟨b :: rest, true⟩ false n).1.tx_q = [] →
        (writeCompletion ⟨b :: rest, true⟩ false n).1.tx_in_progress = false
        ∧ (writeCompletion ⟨b :: rest, true⟩ false n).2 = false) := by
  have hstep : writeCompletion ⟨b :: rest, true⟩ false n
      = (if ({ b with pos := b.pos + n } : MsgBuffer).nbytes = 0 then
           (if rest.isEmpty then ((⟨rest, false⟩ : TxState), false)
            else doWrite false ⟨rest, true⟩)
         else doWrite false ⟨{ b with pos := b.pos + n } :: rest, true⟩) := by
    by_cases h0 : ({ b with pos := b.pos + n } : MsgBuffer).nbytes = 0
    · cases rest <;> simp [writeCompletion, h0, doWrite]
    · simp [writeCompletion, h0, doWrite]
  by_cases hdone : b.pos + n = b.len
  · have hnb : ({ b with pos := b.pos + n } : MsgBuffer).nbytes = 0 := by
      simp [MsgBuffer.nbytes, hdone]
    rw [hstep, if_pos hnb]
    cases rest with
    | nil => simp [doWrite, hdone]
    | cons r rs => simp [doWrite, hdone]
  · have hnb : ({ b with pos := b.pos + n } : MsgBuffer).nbytes ≠ 0 := by
      simp only [MsgBuffer.nbytes]
      omega
    rw [hstep, if_neg hnb]
    simp [doWrite, hdone]

/-- Witness for `c4_write_completion_advances_and_chains`: a frame of
length 5 with 2 bytes sent completes a 3-byte write; it is popped and the
write of the next frame starts in the same call. -/
theorem c4_write_completion_advances_and_chains_witness :
    (⟨5, 2⟩ : MsgBuffer).pos + 3 ≤ (⟨5, 2⟩ : MsgBuffer).len
    ∧ (((writeCompletion ⟨[⟨5, 2⟩, ⟨4, 0⟩], true⟩ false 3).1.tx_q
        = if (⟨5, 2⟩ : MsgBuffer).pos + 3 = (⟨5, 2⟩ : MsgBuffer).len
          then [⟨4, 0⟩]
          else { (⟨5, 2⟩ : MsgBuffer) with
                  pos := (⟨5, 2⟩ : MsgBuffer).pos + 3 } :: [⟨4, 0⟩])
       ∧ ((writeCompletion ⟨[⟨5, 2⟩, ⟨4, 0⟩], true⟩ false 3).1.tx_q ≠ [] →
           (writeCompletion ⟨[⟨5, 2⟩, ⟨4, 0⟩], true⟩ false 3).1.tx_in_progress
             = true
           ∧ (writeCompletion ⟨[⟨5, 2⟩, ⟨4, 0⟩], true⟩ false 3).2 = true)
       ∧ ((writeCompletion ⟨[⟨5, 2⟩, ⟨4, 0⟩], true⟩ false 3).1.tx_q = [] →
           (writeCompletion ⟨[⟨5, 2⟩, ⟨4, 0⟩], true⟩ false 3).1.tx_in_progress
             = false
           ∧ (writeCompletion ⟨[⟨5, 2⟩, ⟨4, 0⟩], true⟩ false 3).2 = false)) :=
  ⟨by decide,
   c4_write_completion_advances_and_chains ⟨5, 2⟩ [⟨4, 0⟩] 3 (by decide)⟩

/-! ## Outbound router (`send_mavlink_message`, lines 358-397)

The routing decision of `send_mavlink_message(message, destination_port)`:
the serial branch (enqueue onto `tx_q`, or drop with an error log when the
device is closed) is taken when `serial_enabled_ && destination_port == 0`;
otherwise the frame is sent with `sendto`.  The UDP branch copies
`_srcaddr` into a local `dest_addr` and overrides its port with
`destination_port` when non-zero — but the `sendto` call on line 390 passes
`&_srcaddr`, not `&dest_addr`, so the frame always goes to the default
configured peer. -/

structure SockAddr where
  addr : Nat
  port : Nat
deriving DecidableEq, Repr

inductive SendAction where
  /-- serial branch: frame appended to `tx_q`, `do_write(true)` posted -/
  | serialEnqueue : SendAction
  /-- serial branch with the device closed: `gzerr` and return, frame lost -/
  | dropSerialClosed : SendAction
  /-- UDP branch: `sendto` towards the given socket address -/
  | udpSendTo (target : SockAddr) : SendAction
deriving DecidableEq, Repr

/-- Routing decision of `send_mavlink_message`.  `srcaddr` is the member
`_srcaddr` (the default configured peer). -/
def send_mavlink_message (serial_enabled : Bool) (serial_is_open : Bool)
    (srcaddr : SockAddr) (destination_port : Nat) : SendAction :=
  if serial_enabled && destination_port == 0 then
    if !serial_is_open then SendAction.dropSerialClosed
    else SendAction.serialEnqueue
  else
    -- dest_addr is built from _srcaddr and, when destination_port != 0,
    -- its port is overridden -- but sendto is passed &_srcaddr instead
    let _dest_addr : SockAddr :=
      if destination_port ≠ 0 then { srcaddr with port := destination_port }
      else srcaddr
    SendAction.udpSendTo srcaddr

/-- Default UDP ports (`kDefaultMavlinkUdpPort`, `kDefaultQGCUdpPort`). -/
def kDefaultMavlinkUdpPort : Nat := 14560

def kDefaultQGCUdpPort : Nat := 14550

/-- C7: serial disabled, an explicit destination port 14550 given, and the
default peer `_srcaddr` at port 14560: the code routes the frame to the
UDP branch, which sends to `_srcaddr` (port 14560), ignoring the explicit
destination port — `dest_addr` is computed with the overridden port but
never passed to `sendto`.  (The serial-route half of the rule does hold:
serial enabled and port 0 routes to the transmit queue.) -/
theorem c7_udp_send_ignores_destination_port :
    send_mavlink_message false true ⟨0, kDefaultMavlinkUdpPort⟩
        kDefaultQGCUdpPort
      = SendAction.udpSendTo ⟨0, kDefaultMavlinkUdpPort⟩
    ∧ send_mavlink_message true true ⟨0, kDefaultMavlinkUdpPort⟩ 0
      = SendAction.serialEnqueue := by
  constructor <;> rfl

/-! ## Configuration loading of the HIL flags (`Load`, lines 217-225)

```cpp
if(_sdf->HasElement("hil_state_level"))
  { hil_mode_ = _sdf->GetElement("hil_mode")->Get<bool>(); }
if(_sdf->HasElement("hil_state_level"))
  { hil_state_level_ = _sdf->GetElement("hil_state_level")->Get<bool>(); }
```

Both guards test `hil_state_level`.  The constructor initialises
`hil_mode_(false), hil_state_level_(false)`; `GetElement` on an absent
element yields the type default (`false`). -/

structure SdfConfig where
  has_hil_mode : Bool
  hil_mode_val : Bool
  has_hil_state_level : Bool
  hil_state_level_val : Bool
deriving DecidableEq, Repr

/-- Source `_sdf->GetElement(name)->Get<bool>()`: the stored value when the element
is present, the `bool` default `false` when `GetElement` has to create it. -/
def sdfGetBool (has : Bool) (val : Bool) : Bool := if has then val else false

structure HilFlags where
  hil_mode : Bool
  hil_state_level : Bool
deriving DecidableEq, Repr

/-- The `hil_mode_` / `hil_state_level_` assignments of `Load`, applied to
the constructor defaults (`false`, `false`). -/
def load_hil_flags (sdf : SdfConfig) : HilFlags :=
  let hil_mode :=
    if sdf.has_hil_state_level then sdfGetBool sdf.has_hil_mode sdf.hil_mode_val
    else false
  let hil_state_level :=
    if sdf.has_hil_state_level
    then sdfGetBool sdf.has_hil_state_level sdf.hil_state_level_val
    else false
  ⟨hil_mode, hil_state_level⟩

/-- C9: both assignments are guarded by `HasElement("hil_state_level")`, so
whenever that element is absent, `hil_mode_` keeps its default `false` —
whatever `hil_mode` element the configuration contains. -/
theorem c9_hil_mode_guarded_by_hil_state_level (sdf : SdfConfig)
    (h : sdf.has_hil_state_level = false) :
    (load_hil_flags sdf).hil_mode = false
    ∧ (load_hil_flags sdf).hil_state_level = false
    ∧ ∀ b v : Bool,
        (load_hil_flags
          { sdf with has_hil_mode := b, hil_mode_val := v }).hil_mode
          = false := by
  refine ⟨?_, ?_, ?_⟩ <;> simp [load_hil_flags, h]

/-- Witness for `c9_hil_mode_guarded_by_hil_state_level`: a configuration
with a `hil_mode` element present and set to `true` but no
`hil_state_level` element still loads `hil_mode_ = false`. -/
theorem c9_hil_mode_guarded_by_hil_state_level_witness :
    (⟨true, true, false, true⟩ : SdfConfig).has_hil_state_level = false
    ∧ ((load_hil_flags ⟨true, true, false, true⟩).hil_mode = false
       ∧ (load_hil_flags ⟨true, true, false, true⟩).hil_state_level = false
       ∧ ∀ b v : Bool,
           (load_hil_flags
             { (⟨true, true, false, true⟩ : SdfConfig) with
                 has_hil_mode := b, hil_mode_val := v }).hil_mode = false) :=
  ⟨by decide,
   c9_hil_mode_guarded_by_hil_state_level ⟨true, true, false, true⟩ (by decide)⟩

/-! ## Motor-speed publication (`OnUpdate`, lines 330-356)

After the first actuator-control frame was decoded
(`received_first_referenc_`), every tick publishes a
`CommandMotorSpeed`: channel `i` carries `input_reference_[i]`, except that
a zero `last_actuator_time_` or an elapsed time above 0.2 s zeroes every
channel.  Simulation times are modelled as `ℚ` seconds. -/

def motor_speed_message (received_first_referenc : Bool)
    (current_time last_actuator_time : ℚ) (input_reference : List ℚ) :
    Option (List ℚ) :=
  if received_first_referenc then
    some (input_reference.map (fun r =>
      if last_actuator_time = 0 ∨ current_time - last_actuator_time > 2/10
      then 0 else r))
  else none

/-- C10: once the first actuator frame has been decoded, a tick whose
last-actuator timestamp is zero or older than 0.2 s of simulation time
publishes a motor-speed command that is 0 on every channel, whatever the
Actuator Reference holds. -/
theorem c10_motor_speed_zero_when_stale (current_time last_actuator_time : ℚ)
    (input_reference : List ℚ)
    (h : last_actuator_time = 0
         ∨ current_time - last_actuator_time > 2/10) :
    motor_speed_message true current_time last_actuator_time input_reference
      = some (List.replicate input_reference.length 0) := by
  have hf : (fun r : ℚ =>
      if last_actuator_time = 0 ∨ current_time - last_actuator_time > 2/10
      then 0 else r) = fun _ => (0 : ℚ) := by
    funext r
    rw [if_pos h]
  simp [motor_speed_message, hf, List.map_const']

/-- Witness for `c10_motor_speed_zero_when_stale`: stale by 0.3 s with a
non-zero Actuator Reference. -/
theorem c10_motor_speed_zero_when_stale_witness :
    ((1 : ℚ) / 2 = 0 ∨ (4 : ℚ) / 5 - 1 / 2 > 2 / 10)
    ∧ motor_speed_message true (4/5) (1/2) [100, 0, -3]
      = some (List.replicate 3 0) :=
  ⟨Or.inr (by norm_num),
   c10_motor_speed_zero_when_stale (4/5) (1/2) [100, 0, -3]
     (Or.inr (by norm_num))⟩

/-! ## HIL actuator-control decode (`handle_message`, lines 783-815)

`handle_message` on `MAVLINK_MSG_ID_HIL_ACTUATOR_CONTROLS` decodes the
controls, derives `armed` from the mode bitmask, sets
`input_index_[i] = i`, and rebuilds the whole `input_reference_`:
armed channels get
`(controls.controls[input_index_[i]] + input_offset_[i]) * input_scaling_[i]
 + zero_position_armed_[i]`, disarmed ones `zero_position_disarmed_[i]`.
Control values (`float`) are modelled over `ℚ`. -/

/-- Constant `n_out_max` from the header (line 239). -/
def n_out_max : Nat := 16

/-- Constant `MAV_MODE_FLAG_SAFETY_ARMED` from the MAVLink common dialect. -/
def MAV_MODE_FLAG_SAFETY_ARMED : Nat := 128

/-- The per-channel configuration arrays filled by `Load`. -/
structure ChannelConfig where
  input_offset : Fin n_out_max → ℚ
  input_scaling : Fin n_out_max → ℚ
  zero_position_disarmed : Fin n_out_max → ℚ
  zero_position_armed : Fin n_out_max → ℚ

/-- A decoded `mavlink_hil_actuator_controls_t`: the 16 raw control values
and the mode bitmask. -/
structure HilActuatorControls where
  controls : Fin n_out_max → ℚ
  mode : Nat

/-- Flag `armed` as computed on lines 789-793:
`(controls.mode & MAV_MODE_FLAG_SAFETY_ARMED) > 0`. -/
def controls_armed (c : HilActuatorControls) : Bool :=
  (c.mode &&& MAV_MODE_FLAG_SAFETY_ARMED) > 0

/-- The new `input_reference_` written by `handle_message`
(`input_index_[i] = i`, lines 797-810). -/
def handle_actuator_controls (cfg : ChannelConfig)
    (c : HilActuatorControls) : Fin n_out_max → ℚ :=
  fun i =>
    if controls_armed c then
      (c.controls i + cfg.input_offset i) * cfg.input_scaling i
        + cfg.zero_position_armed i
    else
      cfg.zero_position_disarmed i

/-- C5: with the safety-armed flag set in the mode bitmask, every channel
of the Actuator Reference becomes
`(raw + offset) * scale + zero_armed`; with the flag clear, every channel
becomes `zero_disarmed`, independently of the raw control values. -/
theorem c5_actuator_decode (cfg : ChannelConfig) (c : HilActuatorControls) :
    ((c.mode &&& MAV_MODE_FLAG_SAFETY_ARMED) > 0 →
      ∀ i, handle_actuator_controls cfg c i
        = (c.controls i + cfg.input_offset i) * cfg.input_scaling i
          + cfg.zero_position_armed i)
    ∧ ((c.mode &&& MAV_MODE_FLAG_SAFETY_ARMED) = 0 →
        ∀ i, handle_actuator_controls cfg c i
          = cfg.zero_position_disarmed i) := by
  constructor
  · intro h i
    simp [handle_actuator_controls, controls_armed, h]
  · intro h i
    simp [handle_actuator_controls, controls_armed, h]

/-- The all-zero channel configuration, used as witness input. -/
def cfgZero : ChannelConfig :=
  ⟨fun _ => 0, fun _ => 1, fun _ => 0, fun _ => 0⟩

/-- A controls frame with raw value 100 on every channel and only the
safety-armed bit set in the mode mask. -/
def controlsArmed100 : HilActuatorControls := ⟨fun _ => 100, 128⟩

/-- Witness for `c5_actuator_decode`: armed, raw = 100, offset = 0,
scale = 1, zero_armed = 0 yields 100 on channel 0. -/
theorem c5_actuator_decode_witness :
    (controlsArmed100.mode &&& MAV_MODE_FLAG_SAFETY_ARMED) > 0
    ∧ handle_actuator_controls cfgZero controlsArmed100 ⟨0, by norm_num [n_out_max]⟩
      = 100 := by
  refine ⟨by decide, ?_⟩
  have h := (c5_actuator_decode cfgZero controlsArmed100).1 (by decide)
      ⟨0, by norm_num [n_out_max]⟩
  rw [h]
  norm_num [cfgZero, controlsArmed100]

/-! ## Rate gating in `ImuCallback` (lines 399-596)

The HIL sensor sample is built, encoded and (subject to the HIL-mode
flags) sent only inside
`if (imu_update_interval_ != 0 && dt >= imu_update_interval_)`, which also
refreshes `last_imu_time_`.  The HIL ground-truth state
(`hil_state_quaternion`) is built after that `if` closes, on every
callback, gated only by the HIL-mode flags for the send. -/

/-- Default of `imu_update_interval_` (header line 279): 0.004 s. -/
def imu_update_interval_default : ℚ := 4 / 1000

/-- What one `ImuCallback` invocation does, as far as message emission is
concerned. -/
structure ImuStep where
  sensor_built : Bool
  sensor_sent : Bool
  groundtruth_built : Bool
  groundtruth_sent : Bool
  last_imu_time : ℚ
deriving DecidableEq, Repr

/-- The emission structure of `ImuCallback`: `dt` is
`current_time - last_imu_time_`; the sensor block runs iff the interval is
non-zero and `dt` has reached it; the ground-truth block runs
unconditionally; sends are additionally filtered by
`hil_mode_`/`hil_state_level_`. -/
def ImuCallback (imu_update_interval : ℚ) (last_imu_time current_time : ℚ)
    (hil_mode hil_state_level : Bool) : ImuStep :=
  let dt := current_time - last_imu_time
  let gate : Bool := decide (imu_update_interval ≠ 0)
      && decide (dt ≥ imu_update_interval)
  { sensor_built := gate
    sensor_sent := gate && (if hil_mode then !hil_state_level else true)
    groundtruth_built := true
    groundtruth_sent := if hil_mode then hil_state_level else true
    last_imu_time := if gate then current_time else last_imu_time }

/-- C6 counterexample.  The claim asserts (a) each of the two builders runs
only when the accumulated time has reached the update interval and (b) a
zero interval disables the gating so both run every tick.  On the code,
with the default interval 0.004 s and only 0.001 s accumulated, the
ground-truth builder still runs, refuting (a); and with interval 0 the
sensor builder never runs, refuting (b). -/
theorem c6_counterexample :
    (ImuCallback imu_update_interval_default 0 (1/1000) false
        false).groundtruth_built = true
    ∧ ¬ ((1 : ℚ)/1000 - 0 ≥ imu_update_interval_default)
    ∧ (ImuCallback 0 0 (1/1000) false false).sensor_built = false := by
  refine ⟨rfl, by norm_num [imu_update_interval_default], ?_⟩
  simp [ImuCallback]

/-- C6 (amended): the sensor-sample builder runs exactly when the interval
is non-zero and the accumulated simulation time since the previous sensor
emission has reached it — so a zero interval suppresses sensor emission
entirely instead of disabling the gating — while the ground-truth builder
runs on every IMU callback, regardless of interval and accumulated time;
`last_imu_time_` is refreshed exactly when the sensor block runs. -/
theorem c6_sensor_gated_groundtruth_not (imu_update_interval : ℚ)
    (last_imu_time current_time : ℚ) (hil_mode hil_state_level : Bool) :
    ((ImuCallback imu_update_interval last_imu_time current_time hil_mode
        hil_state_level).sensor_built = true
      ↔ (imu_update_interval ≠ 0
         ∧ current_time - last_imu_time ≥ imu_update_interval))
    ∧ (ImuCallback imu_update_interval last_imu_time current_time hil_mode
        hil_state_level).groundtruth_built = true
    ∧ (ImuCallback imu_update_interval last_imu_time current_time hil_mode
        hil_state_level).last_imu_time
      = (if imu_update_interval ≠ 0
            ∧ current_time - last_imu_time ≥ imu_update_interval
         then current_time else last_imu_time) := by
  refine ⟨?_, rfl, ?_⟩
  · simp [ImuCallback]
  · by_cases h1 : imu_update_interval ≠ 0
      <;> by_cases h2 : current_time - last_imu_time ≥ imu_update_interval
      <;> simp [ImuCallback, h1, h2]

/-! ## Optical-flow gyro accumulator (`optflow_gyro`)

Inside the sensor block of `ImuCallback` (lines 531-537) the body-frame
gyro rates are integrated into `optflow_gyro`:

```cpp
static uint32_t last_dt_us = sensor_msg.time_usec;
uint32_t dt_us = sensor_msg.time_usec - last_dt_us;
if (dt_us > 1000) {
  optflow_gyro += gyro_b * (dt_us / 1000000.0f);
  last_dt_us = sensor_msg.time_usec;
}
```

`OpticalFlowCallback` (lines 660-681) copies the accumulator (negated /
axis-swapped, zeroed when `quality` is 0) into the flow message and then
resets it with `optflow_gyro.Set()`. -/

structure Vec3 where
  x : ℚ
  y : ℚ
  z : ℚ
deriving DecidableEq, Repr

/-- Source `math::Vector3::Set()` with no arguments: the zero vector. -/
def Vec3.zero : Vec3 := ⟨0, 0, 0⟩

/-- Componentwise vector addition (`operator+` of `math::Vector3`). -/
def Vec3.add (a b : Vec3) : Vec3 := ⟨a.x + b.x, a.y + b.y, a.z + b.z⟩

instance : Add Vec3 := ⟨Vec3.add⟩

lemma Vec3.add_def (a b : Vec3) :
    a + b = ⟨a.x + b.x, a.y + b.y, a.z + b.z⟩ := rfl

/-- Scaling a vector by a scalar (`gyro_b * (dt_us / 1000000.0f)`). -/
def Vec3.smul (v : Vec3) (a : ℚ) : Vec3 := ⟨v.x * a, v.y * a, v.z * a⟩

/-- Squared Euclidean magnitude; the magnitude of `v` is non-decreasing
exactly when `normSq v` is. -/
def Vec3.normSq (v : Vec3) : ℚ := v.x * v.x + v.y * v.y + v.z * v.z

lemma Vec3.add_smul_smul (g : Vec3) (a b : ℚ) :
    g.smul a + g.smul b = g.smul (a + b) := by
  simp only [Vec3.smul, Vec3.add_def, Vec3.mk.injEq]
  refine ⟨by ring, by ring, by ring⟩

lemma Vec3.normSq_smul (g : Vec3) (a : ℚ) :
    (g.smul a).normSq = a * a * g.normSq := by
  simp only [Vec3.smul, Vec3.normSq]
  ring

/-- The state owned by the accumulation code: the accumulator itself and
the `static` timestamp `last_dt_us` (µs). -/
structure OptflowGyroState where
  optflow_gyro : Vec3
  last_dt_us : Nat
deriving DecidableEq, Repr

/-- One execution of the accumulation fragment of `ImuCallback`, at
absolute time `time_usec` with body gyro rates `gyro_b`. -/
def accumulate_gyro (s : OptflowGyroState) (time_usec : Nat) (gyro_b : Vec3) :
    OptflowGyroState :=
  let dt_us := time_usec - s.last_dt_us
  if dt_us > 1000 then
    { optflow_gyro := s.optflow_gyro + gyro_b.smul ((dt_us : ℚ) / 1000000)
      last_dt_us := time_usec }
  else
    s

/-- The gyro fields of one `mavlink_hil_optical_flow_t` flow sample. -/
structure OptFlowGyroFields where
  integrated_xgyro : ℚ
  integrated_ygyro : ℚ
  integrated_zgyro : ℚ
deriving DecidableEq, Repr

/-- Source `OpticalFlowCallback`, restricted to its use of `optflow_gyro`: builds
the emitted gyro fields (axis-swapped and sign-flipped, zeroed when
`quality` is 0) and resets the accumulator. -/
def OpticalFlowCallback (s : OptflowGyroState) (quality : Nat) :
    OptFlowGyroFields × OptflowGyroState :=
  (⟨if quality ≠ 0 then -s.optflow_gyro.y else 0,
    if quality ≠ 0 then s.optflow_gyro.x else 0,
    if quality ≠ 0 then -s.optflow_gyro.z else 0⟩,
   { s with optflow_gyro := Vec3.zero })

/-- C8: emitting a flow sample resets the accumulator to zero; and between
samples, under a constant angular rate `g` (so the accumulator is always a
non-negative multiple of `g`, as it is right after a reset), each
accumulation step — which only fires when more than 1000 µs have elapsed
since the last one — leaves the squared magnitude of the accumulator
non-decreasing, and the accumulator a non-negative multiple of `g`
again. -/
theorem c8_optflow_gyro_reset_and_monotone (s : OptflowGyroState)
    (quality : Nat) (g : Vec3) (time_usec : Nat) (c : ℚ) (hc : 0 ≤ c)
    (hs : s.optflow_gyro = g.smul c) :
    (OpticalFlowCallback s quality).2.optflow_gyro = Vec3.zero
    ∧ s.optflow_gyro.normSq
        ≤ (accumulate_gyro s time_usec g).optflow_gyro.normSq
    ∧ ∃ d : ℚ, c ≤ d
        ∧ (accumulate_gyro s time_usec g).optflow_gyro = g.smul d := by
  refine ⟨rfl, ?_, ?_⟩
  · by_cases h : time_usec - s.last_dt_us > 1000
    · simp only [accumulate_gyro, if_pos h, hs, Vec3.add_smul_smul,
        Vec3.normSq_smul]
      have hd : (0 : ℚ) ≤ ((time_usec - s.last_dt_us : Nat) : ℚ) / 1000000 := by
        positivity
      have hN : (0 : ℚ) ≤ g.normSq := by
        have hx := mul_self_nonneg g.x
        have hy := mul_self_nonneg g.y
        have hz := mul_self_nonneg g.z
        simp only [Vec3.normSq]
        linarith
      nlinarith [mul_nonneg (mul_nonneg hc hd) hN,
        mul_nonneg (mul_nonneg hd hd) hN]
    · simp [accumulate_gyro, if_neg h]
  · by_cases h : time_usec - s.last_dt_us > 1000
    · refine ⟨c + ((time_usec - s.last_dt_us : Nat) : ℚ) / 1000000, ?_, ?_⟩
      · have : (0 : ℚ) ≤ ((time_usec - s.last_dt_us : Nat) : ℚ) / 1000000 := by
          positivity
        linarith
      · simp [accumulate_gyro, if_pos h, hs, Vec3.add_smul_smul]
    · exact ⟨c, le_refl c, by simp [accumulate_gyro, if_neg h, hs]⟩

/-- Witness for `c8_optflow_gyro_reset_and_monotone`: right after a reset
(accumulator `0 = g.smul 0`), a step 2000 µs later accumulates. -/
theorem c8_optflow_gyro_reset_and_monotone_witness :
    (0 : ℚ) ≤ 0
    ∧ (⟨Vec3.zero, 0⟩ : OptflowGyroState).optflow_gyro
      = Vec3.smul ⟨1, 2, 3⟩ 0
    ∧ ((OpticalFlowCallback ⟨Vec3.zero, 0⟩ 1).2.optflow_gyro = Vec3.zero
       ∧ (⟨Vec3.zero, 0⟩ : OptflowGyroState).optflow_gyro.normSq
           ≤ (accumulate_gyro ⟨Vec3.zero, 0⟩ 2000
              ⟨1, 2, 3⟩).optflow_gyro.normSq
       ∧ ∃ d : ℚ, 0 ≤ d
           ∧ (accumulate_gyro ⟨Vec3.zero, 0⟩ 2000 ⟨1, 2, 3⟩).optflow_gyro
             = Vec3.smul ⟨1, 2, 3⟩ d) :=
  ⟨le_refl 0, by simp [Vec3.zero, Vec3.smul],
   c8_optflow_gyro_reset_and_monotone ⟨Vec3.zero, 0⟩ 1 ⟨1, 2, 3⟩ 2000 0
     (le_refl 0) (by simp [Vec3.zero, Vec3.smul])⟩

/-! ## Serial frame decoder (`parse_buffer`, lines 909-939)

`parse_buffer` feeds each received byte to the MAVLink incremental parser
`mavlink_frame_char_buffer` and, on `Framing::bad_crc` /
`Framing::bad_signature`, resynchronizes:

```cpp
m_status.parse_state = MAVLINK_PARSE_STATE_IDLE;
if (c == MAVLINK_STX) {
  m_status.parse_state = MAVLINK_PARSE_STATE_GOT_STX;
  m_buffer.len = 0;
  mavlink_start_checksum(&m_buffer);
}
```

`mavlink_frame_char_buffer` itself belongs to the MAVLink library headers
and is not part of this repository's sources, so the byte-level parser
below is modelled from the spec; the resynchronization wrapper
(`parseStep`) is translated from `parse_buffer`. -/

/-- The MAVLink v2 frame-start marker (`MAVLINK_STX`, 0xFD). -/
def MAVLINK_STX : Nat := 253

/-- Modelled from the spec: the MAVLink CRC-16/X.25 accumulation step
(`crc_accumulate`), on `Nat` with explicit reduction mod 2^8 / 2^16. -/
def crc_accumulate (data : Nat) (crcAccum : Nat) : Nat :=
  let tmp := (data ^^^ (crcAccum % 256)) % 256
  let tmp2 := (tmp ^^^ ((tmp <<< 4) % 256)) % 256
  ((crcAccum / 256) ^^^ (tmp2 <<< 8) ^^^ (tmp2 <<< 3) ^^^ (tmp2 >>> 4)) % 65536

/-- Modelled from the spec: CRC-16 of a byte sequence, seeded with 0xFFFF
(`crc_calculate`). -/
def crc_calculate (bytes : List Nat) : Nat :=
  bytes.foldl (fun a d => crc_accumulate d a) 65535

/-- The `Framing` enum of `gazebo_mavlink_interface.h` (lines 111-116), with
`ok` carrying the recovered frame's payload.  This is the spec's
`FrameResult ∈ \x7bIncomplete, Ok(Frame), BadCrc, BadSignature\x7d`. -/
inductive FrameResult where
  | incomplete : FrameResult
  | ok (payload : List Nat) : FrameResult
  | badCrc : FrameResult
  | badSignature : FrameResult
deriving DecidableEq, Repr

/-- The rolling parser state (`m_status.parse_state` together with the
accumulation buffer `m_buffer`): idle; start marker seen (awaiting the
declared payload length); accumulating a payload of declared length;
awaiting the low, then the high CRC byte. -/
inductive ParseState where
  | idle : ParseState
  | gotStx : ParseState
  | inPayload (len : Nat) (acc : List Nat) : ParseState
  | crcLow (len : Nat) (payload : List Nat) : ParseState
  | crcHigh (len : Nat) (payload : List Nat) (ckLow : Nat) : ParseState
deriving DecidableEq, Repr

/-- Modelled from the spec: the incremental byte-in, result-out parser
(`mavlink_frame_char_buffer`): seek the start marker; read the declared
length (a zero-length payload is valid and skips straight to the CRC);
accumulate exactly `len` payload bytes (a start marker inside the payload
is ordinary data); read the two CRC bytes and compare against the CRC-16
of the length byte and payload.  On a match the frame is emitted and the
state returns to idle; on a mismatch `badCrc` is reported. -/
def feed (st : ParseState) (c : Nat) : ParseState × FrameResult :=
  match st with
  | ParseState.idle =>
    if c = MAVLINK_STX then (ParseState.gotStx, FrameResult.incomplete)
    else (ParseState.idle, FrameResult.incomplete)
  | ParseState.gotStx =>
    if c = 0 then (ParseState.crcLow 0 [], FrameResult.incomplete)
    else (ParseState.inPayload c [], FrameResult.incomplete)
  | ParseState.inPayload len acc =>
    if acc.length + 1 = len then
      (ParseState.crcLow len (acc ++ [c]), FrameResult.incomplete)
    else
      (ParseState.inPayload len (acc ++ [c]), FrameResult.incomplete)
  | ParseState.crcLow len payload =>
    (ParseState.crcHigh len payload c, FrameResult.incomplete)
  | ParseState.crcHigh len payload ckLow =>
    if ckLow = crc_calculate (len :: payload) % 256
       ∧ c = crc_calculate (len :: payload) / 256 then
      (ParseState.idle, FrameResult.ok payload)
    else
      (ParseState.idle, FrameResult.badCrc)

/-- One byte of `parse_buffer`'s loop (lines 916-930): run the parser and,
on `bad_crc`/`bad_signature`, force the state to idle — unless the byte
just consumed is the start marker, in which case accumulation restarts
immediately from it (`GOT_STX` with an emptied buffer and a restarted
checksum). -/
def parseStep (st : ParseState) (c : Nat) : ParseState × FrameResult :=
  match feed st c with
  | (_, FrameResult.badCrc) =>
    (if c = MAVLINK_STX then ParseState.gotStx else ParseState.idle,
     FrameResult.badCrc)
  | (_, FrameResult.badSignature) =>
    (if c = MAVLINK_STX then ParseState.gotStx else ParseState.idle,
     FrameResult.badSignature)
  | p => p

/-- Running `parse_buffer`'s loop over a byte sequence, collecting the
payloads of the frames recovered with result `ok`. -/
def parseBytes (st : ParseState) (bytes : List Nat) :
    ParseState × List (List Nat) :=
  match bytes with
  | [] => (st, [])
  | c :: cs =>
    match parseStep st c with
    | (st', FrameResult.ok payload) =>
      let r := parseBytes st' cs
      (r.1, payload :: r.2)
    | (st', _) => parseBytes st' cs

/-- Modelled from the spec: the wire image of one well-formed frame with
payload `payload`: start marker, length byte, payload bytes, then the
CRC-16 of length-and-payload, low byte first. -/
def encodeFrame (payload : List Nat) : List Nat :=
  [MAVLINK_STX, payload.length] ++ payload
    ++ [crc_calculate (payload.length :: payload) % 256,
        crc_calculate (payload.length :: payload) / 256]

lemma parseBytes_cons_incomplete (st st' : ParseState) (c : Nat)
    (cs : List Nat) (h : parseStep st c = (st', FrameResult.incomplete)) :
    parseBytes st (c :: cs) = parseBytes st' cs := by
  simp [parseBytes, h]

lemma parseBytes_cons_badCrc (st st' : ParseState) (c : Nat) (cs : List Nat)
    (h : parseStep st c = (st', FrameResult.badCrc)) :
    parseBytes st (c :: cs) = parseBytes st' cs := by
  simp [parseBytes, h]

lemma parseBytes_cons_ok (st st' : ParseState) (c : Nat) (cs : List Nat)
    (pl : List Nat) (h : parseStep st c = (st', FrameResult.ok pl)) :
    parseBytes st (c :: cs)
      = ((parseBytes st' cs).1, pl :: (parseBytes st' cs).2) := by
  simp [parseBytes, h]

/-- Running the parser through a payload: from `inPayload len acc` with
`acc.length + q.length = len`, consuming `q` lands on `crcLow len (acc ++ q)`
with no frame emitted. -/
lemma parseBytes_run_payload (q : List Nat) :
    ∀ (acc : List Nat) (len : Nat) (rest : List Nat),
      acc.length + q.length = len → q ≠ [] →
      parseBytes (ParseState.inPayload len acc) (q ++ rest)
        = parseBytes (ParseState.crcLow len (acc ++ q)) rest := by
  induction q with
  | nil =>
    intro acc len rest _ hq
    exact absurd rfl hq
  | cons c cs ih =>
    intro acc len rest h _
    cases cs with
    | nil =>
      have hl : acc.length + 1 = len := by simpa using h
      have hstep : parseStep (ParseState.inPayload len acc) c
          = (ParseState.crcLow len (acc ++ [c]), FrameResult.incomplete) := by
        simp [parseStep, feed, hl]
      simpa using parseBytes_cons_incomplete _ _ _ _ hstep
    | cons c2 cs2 =>
      have hl : ¬ (acc.length + 1 = len) := by
        simp only [List.length_cons] at h
        omega
      have hstep : parseStep (ParseState.inPayload len acc) c
          = (ParseState.inPayload len (acc ++ [c]), FrameResult.incomplete) :=
        by simp [parseStep, feed, hl]
      have hrec := ih (acc ++ [c]) len rest
        (by simp only [List.length_append, List.length_cons,
              List.length_nil] at h ⊢; omega)
        (by simp)
      calc parseBytes (ParseState.inPayload len acc) ((c :: c2 :: cs2) ++ rest)
          = parseBytes (ParseState.inPayload len (acc ++ [c]))
              ((c2 :: cs2) ++ rest) := by
            simpa using parseBytes_cons_incomplete _ _ _ _ hstep
        _ = parseBytes (ParseState.crcLow len ((acc ++ [c]) ++ (c2 :: cs2)))
              rest := hrec
        _ = parseBytes (ParseState.crcLow len (acc ++ (c :: c2 :: cs2)))
              rest := by simp

/-- Decoding one well-formed frame from the `gotStx` state: the length
byte, the payload and the two matching CRC bytes emit exactly that
payload and return the parser to idle for the remaining bytes. -/
lemma parseBytes_decode_gotStx (pl : List Nat) (rest : List Nat) :
    parseBytes ParseState.gotStx
        (pl.length :: (pl ++ [crc_calculate (pl.length :: pl) % 256,
                              crc_calculate (pl.length :: pl) / 256] ++ rest))
      = ((parseBytes ParseState.idle rest).1,
         pl :: (parseBytes ParseState.idle rest).2) := by
  cases pl with
  | nil =>
    have h1 : parseStep ParseState.gotStx 0
        = (ParseState.crcLow 0 [], FrameResult.incomplete) := by
      simp [parseStep, feed]
    have h2 : parseStep (ParseState.crcLow 0 [])
          (crc_calculate [0] % 256)
        = (ParseState.crcHigh 0 [] (crc_calculate [0] % 256),
           FrameResult.incomplete) := by
      simp [parseStep, feed]
    have h3 : parseStep (ParseState.crcHigh 0 [] (crc_calculate [0] % 256))
          (crc_calculate [0] / 256)
        = (ParseState.idle, FrameResult.ok []) := by
      simp [parseStep, feed]
    simp only [List.length_nil, List.nil_append, List.cons_append,
      List.nil_append]
    rw [parseBytes_cons_incomplete _ _ _ _ h1,
      parseBytes_cons_incomplete _ _ _ _ h2,
      parseBytes_cons_ok _ _ _ _ _ h3]
  | cons p ps =>
    have hlen : ¬ ((p :: ps).length = 0) := by simp
    have h1 : parseStep ParseState.gotStx (p :: ps).length
        = (ParseState.inPayload (p :: ps).length [], FrameResult.incomplete) :=
      by simp [parseStep, feed]
    have hrun := parseBytes_run_payload (p :: ps) [] (p :: ps).length
      ([crc_calculate ((p :: ps).length :: (p :: ps)) % 256,
        crc_calculate ((p :: ps).length :: (p :: ps)) / 256] ++ rest)
      (by simp) (by simp)
    have h2 : parseStep (ParseState.crcLow (p :: ps).length (p :: ps))
          (crc_calculate ((p :: ps).length :: (p :: ps)) % 256)
        = (ParseState.crcHigh (p :: ps).length (p :: ps)
             (crc_calculate ((p :: ps).length :: (p :: ps)) % 256),
           FrameResult.incomplete) := by
      simp [parseStep, feed]
    have h3 : parseStep (ParseState.crcHigh (p :: ps).length (p :: ps)
          (crc_calculate ((p :: ps).length :: (p :: ps)) % 256))
          (crc_calculate ((p :: ps).length :: (p :: ps)) / 256)
        = (ParseState.idle, FrameResult.ok (p :: ps)) := by
      simp [parseStep, feed]
    rw [parseBytes_cons_incomplete _ _ _ _ h1]
    rw [show (p :: ps) ++ [crc_calculate ((p :: ps).length :: (p :: ps)) % 256,
          crc_calculate ((p :: ps).length :: (p :: ps)) / 256] ++ rest
        = (p :: ps) ++ ((crc_calculate ((p :: ps).length :: (p :: ps)) % 256)
            :: (crc_calculate ((p :: ps).length :: (p :: ps)) / 256) :: rest)
      from by simp]
    rw [show ((crc_calculate ((p :: ps).length :: (p :: ps)) % 256)
          :: (crc_calculate ((p :: ps).length :: (p :: ps)) / 256) :: rest)
        = [crc_calculate ((p :: ps).length :: (p :: ps)) % 256,
           crc_calculate ((p :: ps).length :: (p :: ps)) / 256] ++ rest
      from by simp] at *
    rw [hrun]
    simp only [List.nil_append, List.cons_append]
    rw [parseBytes_cons_incomplete _ _ _ _ h2,
      parseBytes_cons_ok _ _ _ _ _ h3]

/-- C3: a corrupted frame — start marker, declared length `n`, `n` payload
bytes `q`, a CRC low byte `x`, and a CRC high byte that happens to equal
the start marker and fails the CRC check — immediately followed by the
remaining bytes of a well-formed frame whose start marker is that very
error byte, is decoded into exactly the well-formed frame's payload: the
corrupted accumulation is discarded, the decoder restarts on the error
byte as a new candidate start, and no other frame is emitted. -/
theorem c3_resync_recovers_valid_frame (n x : Nat) (q pl : List Nat)
    (hq : q.length = n) (_hn : n < 256) (_hx : x < 256)
    (hbad : ¬ (x = crc_calculate (n :: q) % 256
               ∧ MAVLINK_STX = crc_calculate (n :: q) / 256))
    (_hpl : pl.length < 256) (_hb : ∀ b ∈ pl, b < 256) :
    parseBytes ParseState.idle
        ([MAVLINK_STX, n] ++ q ++ [x] ++ encodeFrame pl)
      = (ParseState.idle, [pl]) := by
  have hstx : parseStep ParseState.idle MAVLINK_STX
      = (ParseState.gotStx, FrameResult.incomplete) := by
    simp [parseStep, feed]
  have hlist : [MAVLINK_STX, n] ++ q ++ [x] ++ encodeFrame pl
      = MAVLINK_STX :: n
          :: (q ++ (x :: MAVLINK_STX
              :: (pl.length :: (pl
                  ++ [crc_calculate (pl.length :: pl) % 256,
                      crc_calculate (pl.length :: pl) / 256] ++ [])))) := by
    simp [encodeFrame]
  have hresync : parseStep (ParseState.crcHigh n q x) MAVLINK_STX
      = (ParseState.gotStx, FrameResult.badCrc) := by
    have : ¬ (x = crc_calculate (n :: q) % 256
              ∧ MAVLINK_STX = crc_calculate (n :: q) / 256) := hbad
    simp [parseStep, feed, this]
  have htail :
      parseBytes ParseState.gotStx
          (pl.length :: (pl ++ [crc_calculate (pl.length :: pl) % 256,
                                crc_calculate (pl.length :: pl) / 256] ++ []))
        = (ParseState.idle, [pl]) := by
    rw [parseBytes_decode_gotStx pl []]
    rfl
  rw [hlist, parseBytes_cons_incomplete _ _ _ _ hstx]
  by_cases h0 : n = 0
  · subst h0
    have hq0 : q = [] := List.eq_nil_of_length_eq_zero hq
    subst hq0
    have h1 : parseStep ParseState.gotStx 0
        = (ParseState.crcLow 0 [], FrameResult.incomplete) := by
      simp [parseStep, feed]
    have h2 : parseStep (ParseState.crcLow 0 []) x
        = (ParseState.crcHigh 0 [] x, FrameResult.incomplete) := by
      simp [parseStep, feed]
    rw [show ([] : List Nat) ++ (x :: MAVLINK_STX
          :: (pl.length :: (pl ++ [crc_calculate (pl.length :: pl) % 256,
              crc_calculate (pl.length :: pl) / 256] ++ [])))
        = x :: MAVLINK_STX
          :: (pl.length :: (pl ++ [crc_calculate (pl.length :: pl) % 256,
              crc_calculate (pl.length :: pl) / 256] ++ []))
      from by simp]
    rw [parseBytes_cons_incomplete _ _ _ _ h1,
      parseBytes_cons_incomplete _ _ _ _ h2,
      parseBytes_cons_badCrc _ _ _ _ hresync, htail]
  · have h1 : parseStep ParseState.gotStx n
        = (ParseState.inPayload n [], FrameResult.incomplete) := by
      simp [parseStep, feed, h0]
    have hrun := parseBytes_run_payload q [] n
      (x :: MAVLINK_STX
        :: (pl.length :: (pl ++ [crc_calculate (pl.length :: pl) % 256,
            crc_calculate (pl.length :: pl) / 256] ++ [])))
      (by simpa using hq)
      (by intro hnil; exact h0 (by simpa [hnil] using hq.symm))
    have h2 : parseStep (ParseState.crcLow n ([] ++ q)) x
        = (ParseState.crcHigh n q x, FrameResult.incomplete) := by
      simp [parseStep, feed]
    rw [parseBytes_cons_incomplete _ _ _ _ h1, hrun,
      parseBytes_cons_incomplete _ _ _ _ h2,
      parseBytes_cons_badCrc _ _ _ _ hresync, htail]

/-- Witness for `c3_resync_recovers_valid_frame`: the corrupted frame
`[STX, 1, 7, 0, STX]` (whose CRC check fails on its final byte `STX`)
followed by the remaining bytes of the well-formed frame encoding the
payload `[42]` recovers exactly `[42]`. -/
theorem c3_resync_recovers_valid_frame_witness :
    ([7] : List Nat).length = 1
    ∧ parseBytes ParseState.idle
        (([MAVLINK_STX, 1] ++ [7] ++ [0] ++ encodeFrame [42]))
      = (ParseState.idle, [[42]]) :=
  ⟨rfl,
   c3_resync_recovers_valid_frame 1 0 [7] [42] rfl (by norm_num)
     (by norm_num) (by decide) (by norm_num) (by decide)⟩

end GazeboMavlink
